import Mathlib

/-
Verification of the matchup engine of the seadas matchup prototype
(prototype/matchup-service).  The Python modules aggregator.py, filters.py,
match_row.py, seabass_parser.py, l2_loader.py and orchestrator.py are
shallowly embedded below: numeric values are rationals, numpy arrays are
(row-major) lists of lists, dictionaries are association lists, and fallible
code returns Option or Except.  The two purely floating-point numeric
kernels of the source - the trigonometric haversine formula and the square
root inside np.std - are abstracted as explicit function parameters
(dist, sqrtQ); every property proved here concerns the selection,
aggregation and formatting logic, which is independent of those kernels.
-/

namespace Matchup

/-! ## Basic 2-D array helpers (numpy arrays as lists of lists, row-major) -/

/-- Row lengths of a 2-D array; two rectangular arrays have equal numpy
shape iff this list is equal. -/
def shapeOf (xss : List (List α)) : List ℕ :=
  xss.map List.length

/-- Element access `xss[r][c]` with a default (indices produced by the code
are always in range). -/
def get2D (xss : List (List α)) (d : α) (r c : ℕ) : α :=
  (xss.getD r []).getD c d

/-- An all-True mask of the same shape as the given array
(`np.ones(shape, dtype=bool)`). -/
def allTrue (xss : List (List α)) : List (List Bool) :=
  xss.map (fun row => row.map (fun _ => true))

/-- Elementwise combination of two equally shaped 2-D arrays. -/
def zipWith2D (f : α → β → γ) (a : List (List α)) (b : List (List β)) :
    List (List γ) :=
  (a.zip b).map (fun rr => (rr.1.zip rr.2).map (fun xy => f xy.1 xy.2))

/-- Logical AND of two boolean masks (`mask1 & mask2`). -/
def and2D (a b : List (List Bool)) : List (List Bool) :=
  zipWith2D (· && ·) a b

/-- True positions of one mask row, columns counted from `c`. -/
def rowIndicesAux (r : ℕ) : ℕ → List Bool → List (ℕ × ℕ)
  | _, [] => []
  | c, b :: bs =>
      if b then (r, c) :: rowIndicesAux r (c + 1) bs
      else rowIndicesAux r (c + 1) bs

/-- True positions of the rows of a mask, rows counted from `r`. -/
def maskIndicesAux : ℕ → List (List Bool) → List (ℕ × ℕ)
  | _, [] => []
  | r, row :: rows => rowIndicesAux r 0 row ++ maskIndicesAux (r + 1) rows

/-- `np.where(mask)`: the (row, col) pairs of the True entries of a mask in
row-major scan order. -/
def maskIndices (m : List (List Bool)) : List (ℕ × ℕ) :=
  maskIndicesAux 0 m

/-! ## Floating point values and the aggregator (aggregator.py) -/

/-- A float64 cell value: either a finite value (as a rational) or one of
the non-finite IEEE values rejected by `np.isfinite`. -/
inductive FloatVal where
  | fin (q : ℚ)
  | nan
  | inf
  | ninf
deriving DecidableEq, Repr

/-- The finite payload of a value; `none` exactly when `np.isfinite` is
false. -/
def FloatVal.toFin : FloatVal → Option ℚ
  | .fin q => some q
  | _ => none

/-- Result record of `aggregate_values` (the dict with keys mean, median,
std, count). -/
structure VarStats where
  mean : Option ℚ
  median : Option ℚ
  std : Option ℚ
  count : ℕ
deriving DecidableEq, Repr

/-- Insert into a sorted list, ascending. -/
def insertSorted (x : ℚ) : List ℚ → List ℚ
  | [] => [x]
  | y :: ys => if x ≤ y then x :: y :: ys else y :: insertSorted x ys

/-- Ascending sort (the sort performed inside `np.median`). -/
def sortQ (l : List ℚ) : List ℚ :=
  l.foldr insertSorted []

/-- `np.median` over a nonempty list of finite values: middle element of
the sorted list, or the average of the two middle elements. -/
def medianQ (v : List ℚ) : ℚ :=
  let s := sortQ v
  let n := s.length
  if n % 2 = 1 then s.getD (n / 2) 0
  else (s.getD (n / 2 - 1) 0 + s.getD (n / 2) 0) / 2

/-- Sample variance (`ddof=1`): the quantity whose square root
`np.std(v, ddof=1)` returns. -/
def sampleVar (v : List ℚ) : ℚ :=
  let μ := v.sum / (v.length : ℚ)
  (v.map (fun x => (x - μ) ^ 2)).sum / ((v.length : ℚ) - 1)

/-- aggregator.aggregate_values: flattens its input, drops non-finite
entries, and returns mean / median / std / count; all-null with count 0
when no finite value remains.  The square root inside np.std is the
abstract parameter sqrtQ; the `count == 1` branch returns 0 without
consulting it, exactly as the source returns 0.0 without calling np.std. -/
def aggregate_values (sqrtQ : ℚ → ℚ) (values : List FloatVal) : VarStats :=
  if values.length = 0 then ⟨none, none, none, 0⟩
  else
    let v := values.filterMap FloatVal.toFin
    if v = [] then ⟨none, none, none, 0⟩
    else
      ⟨some (v.sum / (v.length : ℚ)),
       some (medianQ v),
       some (if 1 < v.length then sqrtQ (sampleVar v) else 0),
       v.length⟩

/-! ## The satellite grid (l2_loader.py) and in-situ records -/

/-- The optional time payload of a grid: numpy stores it as one array whose
dimensionality is inspected at every use site (`ndim`/`shape`). -/
inductive TimeArr where
  | oneD (ts : List ℚ)
  | twoD (ts : List (List ℚ))
deriving DecidableEq, Repr

/-- A typed cell of an in-situ data row (`_to_number_or_string` result):
float or string. -/
inductive SBValue where
  | num (q : ℚ)
  | str (s : String)
deriving DecidableEq, Repr

/-- seabass_parser.SeaBASSRecord.  `lat`/`lon` are Python floats produced
by `float()` and may be non-finite (`float("inf")` on a coordinate token
yields a kept record with an infinite coordinate); `time` is the POSIX
timestamp in seconds that `datetime.timestamp()` yields for the parsed UTC
datetime. -/
structure SeaBASSRecord where
  lat : FloatVal
  lon : FloatVal
  time : ℚ
  depth : Option ℚ
  «variables» : List (String × Option SBValue)
deriving DecidableEq, Repr

/-- l2_loader.L2Grid.  `granule_datetime_utc` is the fallback timestamp
parsed from the filename, kept as POSIX seconds. -/
structure L2Grid where
  lat : List (List ℚ)
  lon : List (List ℚ)
  «variables» : List (String × List (List FloatVal))
  flags : Option (List (List ℕ))
  time : Option TimeArr
  granule_datetime_utc : Option ℚ
deriving DecidableEq, Repr

/-! ## Pixel masks (filters.py)

The haversine kernel `haversine_distance_km` is pure floating-point
trigonometry; it enters every function below only through the abstract
parameter `dist lat0 lon0 lat1 lon1`, the distance in km from the in-situ
point to a pixel. -/

/-- filters.build_spatial_mask: all-True when the radius is absent or
non-positive, else `distance <= max_distance_km` per pixel. -/
def build_spatial_mask (dist : FloatVal → FloatVal → ℚ → ℚ → ℚ) (l2 : L2Grid)
    (center_lat center_lon : FloatVal) (max_distance_km : Option ℚ) :
    List (List Bool) :=
  match max_distance_km with
  | none => allTrue l2.lat
  | some m =>
      if m ≤ 0 then allTrue l2.lat
      else zipWith2D (fun la lo => decide (dist center_lat center_lon la lo ≤ m))
        l2.lat l2.lon

/-- filters.build_time_mask: all-True when the grid has no time array, the
center time is absent, or the tolerance is absent/non-positive; otherwise a
same-shape (per-pixel) time array is compared elementwise, a 1-D array whose
length equals the row count is broadcast along each row, and any other shape
falls back to all-True.  The grid's granule_datetime_utc is never consulted. -/
def build_time_mask (l2 : L2Grid) (center_time : Option ℚ)
    (max_time_diff_sec : Option ℚ) : List (List Bool) :=
  match l2.time, center_time with
  | none, _ => allTrue l2.lat
  | _, none => allTrue l2.lat
  | some ta, some c =>
    match max_time_diff_sec with
    | none => allTrue l2.lat
    | some tol =>
      if tol ≤ 0 then allTrue l2.lat
      else
        match ta with
        | .twoD ts =>
            if shapeOf ts = shapeOf l2.lat then
              ts.map (fun row => row.map (fun t => decide (|t - c| ≤ tol)))
            else allTrue l2.lat
        | .oneD ts =>
            if ts.length = l2.lat.length then
              (l2.lat.zip ts).map
                (fun rt => rt.1.map (fun _ => decide (|rt.2 - c| ≤ tol)))
            else allTrue l2.lat

/-- filters.build_flag_mask: all-True when there is no flags array or no
(nonzero) bad-flag bitmask or on shape mismatch; else a pixel is good when
`(flags & uint32(bad_flag_mask)) == 0`. -/
def build_flag_mask (l2 : L2Grid) (bad_flag_mask : Option ℕ) :
    List (List Bool) :=
  match l2.flags, bad_flag_mask with
  | none, _ => allTrue l2.lat
  | _, none => allTrue l2.lat
  | some fl, some b =>
      if b = 0 then allTrue l2.lat
      else if shapeOf fl = shapeOf l2.lat then
        fl.map (fun row => row.map (fun f => decide (f.land (b % 2 ^ 32) = 0)))
      else allTrue l2.lat

/-- filters.build_valid_pixel_mask: spatial AND temporal AND flag mask. -/
def build_valid_pixel_mask (dist : FloatVal → FloatVal → ℚ → ℚ → ℚ) (l2 : L2Grid)
    (seabass_rec : SeaBASSRecord) (max_distance_km max_time_diff_sec : Option ℚ)
    (bad_flag_mask : Option ℕ) : List (List Bool) :=
  and2D
    (and2D
      (build_spatial_mask dist l2 seabass_rec.lat seabass_rec.lon max_distance_km)
      (build_time_mask l2 (some seabass_rec.time) max_time_diff_sec))
    (build_flag_mask l2 bad_flag_mask)

/-- The scan of `np.argmin` over (pixel, distance) pairs: keep the current
best and replace it only on a strictly smaller value, so the first minimum
wins. -/
def selectNP (bp : (ℕ × ℕ) × ℚ) : List ((ℕ × ℕ) × ℚ) → (ℕ × ℕ) × ℚ
  | [] => bp
  | q :: rest => if q.2 < bp.2 then selectNP q rest else selectNP bp rest

/-- filters.find_nearest_valid_pixel: None when no pixel passes the combined
mask, else the index attaining `np.argmin` of the distances of the passing
pixels (taken in the row-major order of `np.where`). -/
def find_nearest_valid_pixel (dist : FloatVal → FloatVal → ℚ → ℚ → ℚ) (l2 : L2Grid)
    (seabass_rec : SeaBASSRecord) (max_distance_km max_time_diff_sec : Option ℚ)
    (bad_flag_mask : Option ℕ) : Option (ℕ × ℕ) :=
  let mask := build_valid_pixel_mask dist l2 seabass_rec max_distance_km
    max_time_diff_sec bad_flag_mask
  let dOf := fun p : ℕ × ℕ =>
    dist seabass_rec.lat seabass_rec.lon (get2D l2.lat 0 p.1 p.2)
      (get2D l2.lon 0 p.1 p.2)
  match maskIndices mask with
  | [] => none
  | rc :: rest =>
      some (selectNP (rc, dOf rc) (rest.map (fun p => (p, dOf p)))).1

/-! ## Per-record matching (match_row.py) -/

/-- Minimum of a nonempty list (`np.min`), seeded with the head. -/
def listMin (x : ℚ) (xs : List ℚ) : ℚ :=
  xs.foldl min x

/-- match_row._compute_distance_metrics: minimum distance over the selected
pixel indices, None when the selection is empty. -/
def _compute_distance_metrics (dist : FloatVal → FloatVal → ℚ → ℚ → ℚ)
    (seabass_rec : SeaBASSRecord) (l2 : L2Grid) (idxs : List (ℕ × ℕ)) :
    Option ℚ :=
  match idxs with
  | [] => none
  | p :: ps =>
      let dOf := fun p : ℕ × ℕ =>
        dist seabass_rec.lat seabass_rec.lon (get2D l2.lat 0 p.1 p.2)
          (get2D l2.lon 0 p.1 p.2)
      some (listMin (dOf p) (ps.map dOf))

/-- match_row._compute_time_metrics: minimum |pixel time - record time| over
selected pixels; None when timing information is absent, its shape is
unusable, or the selection is empty. -/
def _compute_time_metrics (seabass_rec : SeaBASSRecord) (l2 : L2Grid)
    (idxs : List (ℕ × ℕ)) : Option ℚ :=
  match l2.time with
  | none => none
  | some ta =>
    match idxs with
    | [] => none
    | p :: ps =>
      match ta with
      | .twoD ts =>
          if shapeOf ts = shapeOf l2.lat then
            let dOf := fun p : ℕ × ℕ => |get2D ts 0 p.1 p.2 - seabass_rec.time|
            some (listMin (dOf p) (ps.map dOf))
          else none
      | .oneD ts =>
          if ts.length = l2.lat.length then
            let dOf := fun p : ℕ × ℕ => |ts.getD p.1 0 - seabass_rec.time|
            some (listMin (dOf p) (ps.map dOf))
          else none

/-- All-null per-variable statistics (count 0), as filled in for a missing
variable or an empty selection. -/
def nullStats : VarStats := ⟨none, none, none, 0⟩

/-- Result of match_row.match_record_to_l2.  The Python dict keys
sat_NAME_mean/median/std/n are collected into one VarStats entry per
requested variable name. -/
structure MatchResult where
  matchup_min_distance_km : Option ℚ
  matchup_min_dt_sec : Option ℚ
  vars : List (String × VarStats)
deriving DecidableEq, Repr

/-- match_row.match_record_to_l2.  Variable names are stripped, blank names
dropped.  A mode other than "window" or "nearest" is silently replaced by
"window" (lines 133-134 of the source; no exception is raised anywhere in
this function). -/
def match_record_to_l2 (dist : FloatVal → FloatVal → ℚ → ℚ → ℚ) (sqrtQ : ℚ → ℚ)
    (seabass_rec : SeaBASSRecord) (l2 : L2Grid) (variable_names : List String)
    (max_distance_km max_time_diff_sec : Option ℚ) (bad_flag_mask : Option ℕ)
    (mode : String) : MatchResult :=
  let vars := (variable_names.filter (fun v => v.trim ≠ "")).map String.trim
  let mode := if mode = "window" ∨ mode = "nearest" then mode else "window"
  if mode = "nearest" then
    match find_nearest_valid_pixel dist l2 seabass_rec max_distance_km
        max_time_diff_sec bad_flag_mask with
    | none =>
        ⟨none, none, vars.map (fun v => (v, nullStats))⟩
    | some rc =>
        let d_km := dist seabass_rec.lat seabass_rec.lon
          (get2D l2.lat 0 rc.1 rc.2) (get2D l2.lon 0 rc.1 rc.2)
        let dt : Option ℚ :=
          match l2.time with
          | none => none
          | some (.twoD ts) =>
              if shapeOf ts = shapeOf l2.lat then
                some (|get2D ts 0 rc.1 rc.2 - seabass_rec.time|)
              else none
          | some (.oneD ts) =>
              if ts.length = l2.lat.length then
                some (|ts.getD rc.1 0 - seabass_rec.time|)
              else none
        let vstats := vars.map (fun v =>
          (v, match l2.variables.lookup v with
              | none => nullStats
              | some arr =>
                  aggregate_values sqrtQ [get2D arr FloatVal.nan rc.1 rc.2]))
        ⟨some d_km, dt, vstats⟩
  else
    let mask := build_valid_pixel_mask dist l2 seabass_rec max_distance_km
      max_time_diff_sec bad_flag_mask
    let idxs := maskIndices mask
    let vstats := vars.map (fun v =>
      (v, match l2.variables.lookup v with
          | none => nullStats
          | some arr =>
              if idxs = [] then aggregate_values sqrtQ []
              else aggregate_values sqrtQ
                (idxs.map (fun p => get2D arr FloatVal.nan p.1 p.2))))
    ⟨_compute_distance_metrics dist seabass_rec l2 idxs,
     _compute_time_metrics seabass_rec l2 idxs,
     vstats⟩

/-- Whether the grid carries timing information that the matcher can use: a
per-pixel time array of the lat/lon shape, or a per-line 1-D array with one
entry per row.  (Spec-side notion used to state when the dt metric is
computable.) -/
def timeUsable (l2 : L2Grid) : Bool :=
  match l2.time with
  | none => false
  | some (.twoD ts) => shapeOf ts = shapeOf l2.lat
  | some (.oneD ts) => ts.length = l2.lat.length

/-! ## SeaBASS text parsing (seabass_parser.py)

Strings are handled natively; a file is the list of its lines with the
trailing newline already removed (the source reads lines and rstrips
newlines).  Python datetime objects become explicit (year, month, day,
hour, minute, second) records; `datetime.timestamp()` becomes exact
integer arithmetic on days-from-civil. -/

/-- A parsed UTC datetime (all the source's datetimes carry tzinfo=utc). -/
structure DateTime where
  year : ℕ
  month : ℕ
  day : ℕ
  hour : ℕ
  minute : ℕ
  second : ℕ
deriving DecidableEq, Repr

/-- Decidable equality for Except values, used to evaluate concrete parse
results. -/
instance {ε α : Type} [DecidableEq ε] [DecidableEq α] :
    DecidableEq (Except ε α)
  | .ok a, .ok b => decidable_of_iff (a = b) (by simp)
  | .ok _, .error _ => .isFalse (by simp)
  | .error _, .ok _ => .isFalse (by simp)
  | .error a, .error b => decidable_of_iff (a = b) (by simp)

/-- Gregorian leap year. -/
def isLeapYear (y : ℕ) : Bool :=
  (y % 4 = 0 && y % 100 ≠ 0) || y % 400 = 0

/-- Days in a month of a given year. -/
def daysInMonth (y m : ℕ) : ℕ :=
  if m = 2 then (if isLeapYear y then 29 else 28)
  else if m = 4 ∨ m = 6 ∨ m = 9 ∨ m = 11 then 30
  else 31

/-- The (year, month, day) triples accepted by the datetime constructor. -/
def validDate (y m d : ℕ) : Bool :=
  1 ≤ y && y ≤ 9999 && 1 ≤ m && m ≤ 12 && 1 ≤ d && d ≤ daysInMonth y m

/-- The (hour, minute, second) triples accepted by the datetime constructor. -/
def validTime (h mi s : ℕ) : Bool :=
  h ≤ 23 && mi ≤ 59 && s ≤ 59

/-- Days since 1970-01-01 of a proleptic Gregorian date (the arithmetic
behind `datetime.timestamp()` for UTC datetimes). -/
def daysFromCivil (y : ℤ) (m d : ℕ) : ℤ :=
  let y' : ℤ := if m ≤ 2 then y - 1 else y
  let era : ℤ := Int.fdiv y' 400
  let yoe : ℤ := y' - era * 400
  let mp : ℕ := (m + 9) % 12
  let doy : ℤ := (((153 * mp + 2) / 5 : ℕ) : ℤ) + (d : ℤ) - 1
  let doe : ℤ := yoe * 365 + Int.fdiv yoe 4 - Int.fdiv yoe 100 + doy
  era * 146097 + doe - 719468

/-- `datetime.timestamp()`: POSIX seconds of a UTC datetime. -/
def timestampOf (dt : DateTime) : ℚ :=
  ((daysFromCivil (dt.year : ℤ) dt.month dt.day) * 86400
    + (dt.hour : ℤ) * 3600 + (dt.minute : ℤ) * 60 + (dt.second : ℤ) : ℤ)

/-- Value of a list of decimal digit characters. -/
def natOfDigits (cs : List Char) : ℕ :=
  cs.foldl (fun n c => n * 10 + (c.toNat - 48)) 0

/-- seabass_parser._strip_bom: drop leading byte-order marks. -/
def _strip_bom (s : String) : String :=
  ⟨s.data.dropWhile (· = '﻿')⟩

/-- seabass_parser._parse_kv_line: strip; drop comments and lines without
an equals sign; strip one leading slash; split at the first equals sign;
lower-case the key. -/
def _parse_kv_line (line : String) : Option (String × String) :=
  let s := line.trim
  if s = "" ∨ s.startsWith "!" then none
  else
    let s := if s.startsWith "/" then s.drop 1 else s
    match s.splitOn "=" with
    | [] => none
    | [_] => none
    | key :: rest =>
        some (key.trim.toLower, (String.intercalate "=" rest).trim)

/-- seabass_parser._normalize_delimiter: resolve the header delimiter token
to a concrete separator, `none` when no (nonempty) token was declared. -/
def _normalize_delimiter (token : Option String) : Option String :=
  match token with
  | none => none
  | some tok =>
    if tok = "" then none
    else
      let t := tok.trim.toLower
      if t = "tab" ∨ t = "\\t" then some "\t"
      else if t = "comma" ∨ t = "," then some ","
      else if t = "space" ∨ t = "spaces" ∨ t = "whitespace" then some " "
      else if t = "t" then some "\t"
      else some t

/-- seabass_parser._detect_delimiter: best-effort detection from a sample
data line, preferring tab, then comma, else whitespace. -/
def _detect_delimiter (sample_line : String) : String :=
  if sample_line.contains '\t' then "\t"
  else if sample_line.contains ',' then ","
  else " "

/-- seabass_parser._is_missing: blank, case-insensitive "nan", or equal to
the declared missing sentinel. -/
def _is_missing (value_str : String) (missing_token : Option String) : Bool :=
  let s := value_str.trim
  s = "" || s.toLower = "nan" ||
    (match missing_token with
     | none => false
     | some m => s = m.trim)

/-- Split a character list at the first character satisfying `p`. -/
def splitAtFirst (p : Char → Bool) : List Char → List Char × Option (List Char)
  | [] => ([], none)
  | c :: rest =>
      if p c then ([], some rest)
      else
        let ab := splitAtFirst p rest
        (c :: ab.1, ab.2)

/-- The mantissa grammar of the source's float regex:
digits, digits dot digits*, or dot digits. -/
def parseMantissa (cs : List Char) : Option ℚ :=
  let ab := splitAtFirst (· = '.') cs
  match ab.2 with
  | none =>
      if ab.1 ≠ [] ∧ ab.1.all Char.isDigit then some (natOfDigits ab.1)
      else none
  | some fp =>
      if ab.1 = [] then
        if fp ≠ [] ∧ fp.all Char.isDigit then
          some ((natOfDigits fp : ℚ) / 10 ^ fp.length)
        else none
      else if ab.1.all Char.isDigit ∧ fp.all Char.isDigit then
        some ((natOfDigits ab.1 : ℚ) + (natOfDigits fp : ℚ) / 10 ^ fp.length)
      else none

/-- An optionally signed decimal integer (the exponent part of the float
regex). -/
def parseSignedInt : List Char → Option ℤ
  | '+' :: ds =>
      if ds ≠ [] ∧ ds.all Char.isDigit then some (natOfDigits ds) else none
  | '-' :: ds =>
      if ds ≠ [] ∧ ds.all Char.isDigit then some (-(natOfDigits ds : ℤ)) else none
  | ds =>
      if ds ≠ [] ∧ ds.all Char.isDigit then some (natOfDigits ds) else none

/-- The source's `_float_re` match plus `float()` conversion: exact rational
value of a decimal literal with optional sign, fraction and exponent. -/
def parseFloatQ (s : String) : Option ℚ :=
  let sc : ℚ × List Char :=
    match s.data with
    | '+' :: r => (1, r)
    | '-' :: r => (-1, r)
    | r => (1, r)
  let me := splitAtFirst (fun c => c = 'e' ∨ c = 'E') sc.2
  match parseMantissa me.1 with
  | none => none
  | some m =>
    match me.2 with
    | none => some (sc.1 * m)
    | some ep =>
      match parseSignedInt ep with
      | none => none
      | some e =>
          if 0 ≤ e then some (sc.1 * m * 10 ^ e.toNat)
          else some (sc.1 * m / 10 ^ (-e).toNat)

/-- seabass_parser._to_number_or_string: None for missing sentinels, a float
for numeric literals, the stripped string otherwise. -/
def _to_number_or_string (value_str : String) (missing_token : Option String) :
    Option SBValue :=
  if _is_missing value_str missing_token then none
  else
    let s := value_str.trim
    match parseFloatQ s with
    | some q => some (.num q)
    | none => some (.str s)

/-- A digit run with Python numeric-literal underscores: nonempty, every
underscore strictly between digits. -/
def isDigitsU (cs : List Char) : Bool :=
  !cs.isEmpty && cs.all (fun c => c.isDigit || c = '_')
    && (cs.headD '_').isDigit && (cs.getLastD '_').isDigit
    && ((cs.zip cs.tail).all (fun p => p.1.isDigit || p.2.isDigit))

/-- Numeric value of a digit run, ignoring underscores. -/
def valDigitsU (cs : List Char) : ℕ :=
  natOfDigits (cs.filter Char.isDigit)

/-- Python's float() on a string: optional sign, then inf/infinity/nan
(case-insensitive) or a decimal literal with optional underscores, fraction
and exponent.  Finite values are exact rationals (the rounding and overflow
of the 64-bit float are idealized away, as everywhere in this embedding). -/
def pyFloat (s : String) : Option FloatVal :=
  let cs := ((s.data.dropWhile Char.isWhitespace).reverse.dropWhile
    Char.isWhitespace).reverse
  let sc : Bool × List Char :=
    match cs with
    | '+' :: r => (false, r)
    | '-' :: r => (true, r)
    | r => (false, r)
  let low := sc.2.map Char.toLower
  if low = "inf".data ∨ low = "infinity".data then
    some (if sc.1 then .ninf else .inf)
  else if low = "nan".data then some .nan
  else
    let me := splitAtFirst (fun c => c = 'e' ∨ c = 'E') sc.2
    let mant : Option ℚ :=
      let ab := splitAtFirst (· = '.') me.1
      match ab.2 with
      | none => if isDigitsU ab.1 then some (valDigitsU ab.1) else none
      | some fp =>
          if ab.1 = [] then
            if isDigitsU fp then
              some ((valDigitsU fp : ℚ) / 10 ^ (fp.filter Char.isDigit).length)
            else none
          else if isDigitsU ab.1 ∧ (fp = [] ∨ isDigitsU fp) then
            some ((valDigitsU ab.1 : ℚ)
              + (valDigitsU fp : ℚ) / 10 ^ (fp.filter Char.isDigit).length)
          else none
    match mant with
    | none => none
    | some m =>
      let sgn : ℚ := if sc.1 then -1 else 1
      match me.2 with
      | none => some (.fin (sgn * m))
      | some ep =>
        let se : Bool × List Char :=
          match ep with
          | '+' :: r => (false, r)
          | '-' :: r => (true, r)
          | r => (false, r)
        if isDigitsU se.2 then
          some (.fin (if se.1 then sgn * m / 10 ^ valDigitsU se.2
            else sgn * m * 10 ^ valDigitsU se.2))
        else none

/-- The `float(value)` coercion of the row loop: a number passes through,
a string goes through Python float(); `none` models the ValueError that
the surrounding try/except of the row loop catches. -/
def pyFloatOfValue : SBValue → Option FloatVal
  | .num q => some (.fin q)
  | .str s => pyFloat s

/-- seabass_parser._parse_date: `yyyymmdd` or `yyyy-mm-dd`.  The datetime
constructor runs with no surrounding try/except in the source, so a
shape-matching but calendar-invalid date (month 13, Feb 30, year 0000)
raises a ValueError that aborts the entire parse: modelled as `.error`.
A string matching neither shape is `.ok none`. -/
def _parse_date (date_str : String) : Except String (Option (ℕ × ℕ × ℕ)) :=
  let s := date_str.trim
  let mk := fun (y m d : ℕ) =>
    if validDate y m d then Except.ok (some (y, m, d))
    else Except.error "ValueError: day is out of range for month"
  if s = "" then .ok none
  else if s.length = 8 ∧ s.data.all Char.isDigit then
    mk (natOfDigits (s.data.take 4)) (natOfDigits (s.data.drop 4 |>.take 2))
      (natOfDigits (s.data.drop 6))
  else
    match s.splitOn "-" with
    | [a, b, c] =>
        if a.length = 4 ∧ b.length = 2 ∧ c.length = 2 ∧ a.data.all Char.isDigit
            ∧ b.data.all Char.isDigit ∧ c.data.all Char.isDigit then
          mk (natOfDigits a.data) (natOfDigits b.data) (natOfDigits c.data)
        else .ok none
    | _ => .ok none

/-- seabass_parser._parse_time: `hh:mm:ss`, `hhmmss`, `hh:mm` or `hhmm`
(range checking happens later, in the datetime constructor). -/
def _parse_time (time_str : String) : Option (ℕ × ℕ × ℕ) :=
  let s := time_str.trim
  match s.splitOn ":" with
  | [a] =>
      if a.length = 6 ∧ a.data.all Char.isDigit then
        some (natOfDigits (a.data.take 2), natOfDigits (a.data.drop 2 |>.take 2),
          natOfDigits (a.data.drop 4))
      else if a.length = 4 ∧ a.data.all Char.isDigit then
        some (natOfDigits (a.data.take 2), natOfDigits (a.data.drop 2), 0)
      else none
  | [a, b] =>
      if a.length = 2 ∧ b.length = 2 ∧ a.data.all Char.isDigit
          ∧ b.data.all Char.isDigit then
        some (natOfDigits a.data, natOfDigits b.data, 0)
      else none
  | [a, b, c] =>
      if a.length = 2 ∧ b.length = 2 ∧ c.length = 2 ∧ a.data.all Char.isDigit
          ∧ b.data.all Char.isDigit ∧ c.data.all Char.isDigit then
        some (natOfDigits a.data, natOfDigits b.data, natOfDigits c.data)
      else none
  | _ => none

/-- seabass_parser._combine_date_time.  A `None` input yields `None`; with
both parts present the datetime constructor runs unprotected, so an
out-of-range time (25:00:00) raises a ValueError that aborts the entire
parse: modelled as `.error`.  (The date part always arrives pre-validated
from _parse_date.) -/
def _combine_date_time (date_part : Option (ℕ × ℕ × ℕ))
    (time_part : Option (ℕ × ℕ × ℕ)) : Except String (Option DateTime) :=
  match date_part, time_part with
  | some (y, m, d), some (h, mi, s) =>
      if validTime h mi s then .ok (some ⟨y, m, d, h, mi, s⟩)
      else .error "ValueError: hour must be in 0..23"
  | _, _ => .ok none

/-- A 1- or 2-digit numeric strptime field. -/
def num2 (s : String) : Bool :=
  (s.length = 1 || s.length = 2) && s.data.all Char.isDigit

/-- The shared body of the source's two strptime formats
`%Y-%m-%dT%H:%M:%S` and `%Y-%m-%d %H:%M:%S`: a 4-digit year, then 1- or
2-digit month/day/hour/minute/second fields (strptime accepts non-padded
fields such as 2024-1-1T1:2:3).  Range failures of the format regex and
ValueErrors of the datetime constructor both occur inside
datetime.strptime, whose exceptions the source catches, so every invalid
input is `none`.  A string that succeeds under the space format never
contains a T, so trying the T split first is equivalent to the source's
format order. -/
def parseISOLike (s : String) : Option DateTime :=
  let core := fun (d t : String) =>
    match d.splitOn "-", t.splitOn ":" with
    | [ys, ms, ds], [hs, mis, ss] =>
        if ys.length = 4 ∧ ys.data.all Char.isDigit ∧ num2 ms ∧ num2 ds
            ∧ num2 hs ∧ num2 mis ∧ num2 ss then
          let y := natOfDigits ys.data
          let mo := natOfDigits ms.data
          let dd := natOfDigits ds.data
          let h := natOfDigits hs.data
          let mi := natOfDigits mis.data
          let sec := natOfDigits ss.data
          if validDate y mo dd ∧ validTime h mi sec then
            some ⟨y, mo, dd, h, mi, sec⟩
          else none
        else none
    | _, _ => none
  match s.splitOn "T" with
  | [d, t] => core d t
  | _ =>
    match s.splitOn " " with
    | [d, t] => core d t
    | _ => none

/-- seabass_parser._parse_datetime: an ISO-like timestamp, with an optional
trailing Z stripped first (when the Z variant fails, retrying the original
string cannot succeed, so the fallback retry of the source is a no-op).
All exceptions are caught by the source's try/except. -/
def _parse_datetime (dt_str : String) : Option DateTime :=
  let s := dt_str.trim
  if s = "" then none
  else if s.endsWith "Z" then parseISOLike (s.dropRight 1)
  else parseISOLike s

/-! ### Header scanning and row parsing -/

/-- Parsed header of a SeaBASS file (the `header` dict of the source, with
its conventional keys as typed fields). -/
structure SBHeader where
  fields : Option (List String)
  units : Option (List String)
  missing : Option String
  delimiter : Option String
  raw_header_lines : List String
  kv : List (String × String)
deriving DecidableEq, Repr

/-- seabass_parser.SeaBASSData. -/
structure SeaBASSData where
  header : SBHeader
  records : List SeaBASSRecord
deriving DecidableEq, Repr

/-- Dict update: replace any previous binding of the key. -/
def kvSet (l : List (String × String)) (k v : String) :
    List (String × String) :=
  l.filter (fun p => p.1 ≠ k) ++ [(k, v)]

/-- Dict lookup with default. -/
def kvGetD (l : List (String × String)) (k d : String) : String :=
  (l.lookup k).getD d

/-- State of the line scan of parse_seabass_file. -/
structure ScanState where
  in_header : Bool
  header_done : Bool
  fields : Option (List String)
  units : Option (List String)
  missing : Option String
  delimiter : Option String
  raw_header_lines : List String
  kv : List (String × String)
  data_lines : List String
deriving DecidableEq, Repr

/-- Initial scan state. -/
def initScan : ScanState :=
  ⟨false, false, none, none, none, none, [], [], []⟩

/-- One step of the header/data scan loop of parse_seabass_file. -/
def scanStep (st : ScanState) (line : String) : ScanState :=
  let s := line.trim
  if ¬ st.in_header then
    if s.toLower = "/begin_header" then
      { st with in_header := true,
                raw_header_lines := st.raw_header_lines ++ [line] }
    else st
  else if ¬ st.header_done then
    let st := { st with raw_header_lines := st.raw_header_lines ++ [line] }
    if s.toLower = "/end_header" then { st with header_done := true }
    else
      match _parse_kv_line line with
      | none => st
      | some kv =>
        let st := { st with kv := kvSet st.kv kv.1 kv.2 }
        if kv.1 = "fields" then
          { st with fields := some (((kv.2.splitOn ",").map String.trim).filter (· ≠ "")) }
        else if kv.1 = "units" then
          { st with units := some ((kv.2.splitOn ",").map String.trim) }
        else if kv.1 = "missing" then { st with missing := some kv.2 }
        else if kv.1 = "delimiter" then
          { st with delimiter := some kv.2.toLower }
        else st
  else if s = "" ∨ s.startsWith "!" then st
  else { st with data_lines := st.data_lines ++ [line] }

/-- The header record carried out of the scan. -/
def headerOf (st : ScanState) : SBHeader :=
  ⟨st.fields, st.units, st.missing, st.delimiter, st.raw_header_lines, st.kv⟩

/-- Delimiter resolution of parse_seabass_file: a declared token wins; with
no declared token the delimiter is detected from the first data line, and
the absence of data lines is the function's only fatal error besides the
missing fields declaration. -/
def resolveDelimiter (delim_token : Option String) (data_lines : List String) :
    Except String String :=
  match _normalize_delimiter delim_token with
  | some d => .ok d
  | none =>
    match data_lines with
    | [] => .error "SeaBASS file has no data lines after /end_header"
    | l :: _ => .ok (_detect_delimiter l)

/-- Last index of a field whose lower-cased stripped name equals the key
(the dict comprehension `{name.lower(): i}` keeps the last duplicate). -/
def lastIdxOf (fields_lc : List String) (key : String) : Option ℕ :=
  (((fields_lc.map String.toLower).enum.filter (fun p => p.2 = key)).getLast?).map
    (·.1)

/-- parse_seabass_file's local `get_field`: token of a named column, `none`
when the column is undeclared or the row is too short. -/
def getField (fields_lc : List String) (row : List String) (key : String) :
    Option String :=
  match lastIdxOf fields_lc key.toLower with
  | none => none
  | some i => if i < row.length then some (row.getD i "") else none

/-- Python's `a or b` on optional strings: an empty string is falsy. -/
def orPy (a b : Option String) : Option String :=
  match a with
  | some s => if s = "" then b else some s
  | none => b

/-- Splitting of one data line: whitespace-run splitting for the space
delimiter, else split on the delimiter and strip each token. -/
def splitParts (delimiter : String) (line : String) : List String :=
  if delimiter = " " then (line.split Char.isWhitespace).filter (· ≠ "")
  else (line.splitOn delimiter).map String.trim

/-- The lat/lon block of the row loop: coordinate tokens (with the
latitude/longitude fallback names) go through _to_number_or_string and then
through the source's `float()` coercion inside its try/except; `none` means
the row is skipped.  Tokens the numeric regex rejects but float() accepts
("1_0", "inf", "+nan") produce kept coordinates, possibly non-finite, as in
the source. -/
def rowCoords (fields_lc : List String) (parts : List String)
    (missing_token : Option String) : Option (FloatVal × FloatVal) :=
  let lat_s0 := getField fields_lc parts "lat"
  let lon_s0 := getField fields_lc parts "lon"
  let ll :=
    if lat_s0 = none ∨ lon_s0 = none then
      (orPy lat_s0 (getField fields_lc parts "latitude"),
       orPy lon_s0 (getField fields_lc parts "longitude"))
    else (lat_s0, lon_s0)
  match ll.1, ll.2 with
  | some las, some los =>
    match _to_number_or_string las missing_token,
        _to_number_or_string los missing_token with
    | some lav, some lov =>
        match pyFloatOfValue lav, pyFloatOfValue lov with
        | some la, some lo => some (la, lo)
        | _, _ => none
    | _, _ => none
  | _, _ => none

/-- The depth block of the row loop (never fatal to a row). -/
def rowDepth (fields_lc : List String) (parts : List String)
    (missing_token : Option String) : Option ℚ :=
  match orPy (getField fields_lc parts "depth") (getField fields_lc parts "z") with
  | none => none
  | some ds =>
    match _to_number_or_string ds missing_token with
    | some (.num q) => some q
    | _ => none

/-- The datetime block of the row loop: a datetime column (exceptions are
caught inside strptime), else a date and time column pair, else the header
fallback date/time.  The two date/time combination paths run the datetime
constructor unprotected, so their ValueErrors propagate as `.error` and
abort the entire parse. -/
def rowTime (fields_lc : List String) (parts : List String)
    (has_datetime has_date has_time : Bool) (header_date : Option (ℕ × ℕ × ℕ))
    (header_time : Option (ℕ × ℕ × ℕ)) : Except String (Option DateTime) :=
  let dt1 :=
    if has_datetime then
      _parse_datetime ((getField fields_lc parts "datetime").getD "")
    else none
  match (if dt1 = none ∧ has_date ∧ has_time then
      match _parse_date ((getField fields_lc parts "date").getD "") with
      | .error e => .error e
      | .ok d =>
          _combine_date_time d
            (_parse_time ((getField fields_lc parts "time").getD ""))
    else .ok dt1 : Except String (Option DateTime)) with
  | .error e => .error e
  | .ok dt2 =>
      if dt2 = none then
        match header_date, header_time with
        | some d, some t => _combine_date_time (some d) (some t)
        | _, _ => .ok none
      else .ok dt2

/-- Key list of the dict comprehension `{name.lower(): i}`: first-occurrence
order. -/
def firstDedup : List String → List String
  | [] => []
  | x :: xs => x :: (firstDedup xs).filter (· ≠ x)

/-- The variables block of the row loop: one entry per distinct lower-cased
field name, keyed by the original-cased name of its (last) column, holding
the typed cell value or null for a short row. -/
def rowVariables (fields_lc : List String) (parts : List String)
    (missing_token : Option String) : List (String × Option SBValue) :=
  (firstDedup (fields_lc.map String.toLower)).map (fun k =>
    let i := (lastIdxOf fields_lc k).getD 0
    (fields_lc.getD i "",
     if i < parts.length then _to_number_or_string (parts.getD i "") missing_token
     else none))

/-- The body of the row loop of parse_seabass_file: `.ok none` exactly when
the row is silently skipped (fewer than two tokens, unusable coordinates,
or a derivable-timestamp chain yielding nothing); `.error` when an uncaught
date/time ValueError aborts the entire parse.  The declared column count
plays no role. -/
def parseDataRow (fields_lc : List String) (delimiter : String)
    (missing_token : Option String) (has_datetime has_date has_time : Bool)
    (header_date header_time : Option (ℕ × ℕ × ℕ)) (line : String) :
    Except String (Option SeaBASSRecord) :=
  let parts := splitParts delimiter line
  if parts.length < 2 then .ok none
  else
    match rowCoords fields_lc parts missing_token with
    | none => .ok none
    | some ll =>
      match rowTime fields_lc parts has_datetime has_date has_time header_date
          header_time with
      | .error e => .error e
      | .ok none => .ok none
      | .ok (some dt) =>
          .ok (some ⟨ll.1, ll.2, timestampOf dt,
            rowDepth fields_lc parts missing_token,
            rowVariables fields_lc parts missing_token⟩)

/-- The row loop of parse_seabass_file: rows are processed in order,
appending parsed records and silently dropping skipped rows; an uncaught
error from any row aborts the loop (later rows are never reached). -/
def parseRows (fields_lc : List String) (delimiter : String)
    (missing_token : Option String) (has_datetime has_date has_time : Bool)
    (header_date header_time : Option (ℕ × ℕ × ℕ)) :
    List String → Except String (List SeaBASSRecord)
  | [] => .ok []
  | l :: ls =>
      match parseDataRow fields_lc delimiter missing_token has_datetime
          has_date has_time header_date header_time l with
      | .error e => .error e
      | .ok none =>
          parseRows fields_lc delimiter missing_token has_datetime has_date
            has_time header_date header_time ls
      | .ok (some r) =>
          match parseRows fields_lc delimiter missing_token has_datetime
              has_date has_time header_date header_time ls with
          | .error e => .error e
          | .ok rs => .ok (r :: rs)

/-- The header fallback date of parse_seabass_file:
`_parse_date(kv.get("start_date", "")) or _parse_date(kv.get("date", ""))`.
Python's `or` short-circuits on a parsed datetime; either call can raise,
aborting the parse before any row is processed. -/
def headerDateOf (kv : List (String × String)) :
    Except String (Option (ℕ × ℕ × ℕ)) :=
  match _parse_date (kvGetD kv "start_date" "") with
  | .error e => .error e
  | .ok (some d) => .ok (some d)
  | .ok none => _parse_date (kvGetD kv "date" "")

/-- Everything parse_seabass_file does after the line scan: the fatal
missing-fields check, delimiter resolution (fatal only when detection has
no data line to look at), the header fallback date/time (whose date parse
can abort fatally), and the per-row loop (whose date/time construction can
abort fatally). -/
def parseAfterScan (st : ScanState) : Except String SeaBASSData :=
  match st.fields with
  | none => .error "SeaBASS header missing /fields= definition"
  | some fields =>
    if fields = [] then .error "SeaBASS header missing /fields= definition"
    else
      match resolveDelimiter st.delimiter st.data_lines with
      | .error e => .error e
      | .ok delimiter =>
        let fields_lc := fields.map String.trim
        let has_datetime := (lastIdxOf fields_lc "datetime").isSome
        let has_date := (lastIdxOf fields_lc "date").isSome
        let has_time := (lastIdxOf fields_lc "time").isSome
        match headerDateOf st.kv with
        | .error e => .error e
        | .ok header_date =>
          let header_time :=
            (_parse_time (kvGetD st.kv "start_time" "")).orElse
              (fun _ => _parse_time (kvGetD st.kv "time" ""))
          match parseRows fields_lc delimiter st.missing has_datetime has_date
              has_time header_date header_time st.data_lines with
          | .error e => .error e
          | .ok records => .ok ⟨headerOf st, records⟩

/-- seabass_parser.parse_seabass_file over the list of (newline-stripped)
lines of the file. -/
def parse_seabass_file (lines : List String) : Except String SeaBASSData :=
  parseAfterScan ((lines.map _strip_bom).foldl scanStep initScan)

/-! ## Output assembly (orchestrator.py) -/

/-- orchestrator._delimiter_char: the actual separator character used to
join output data rows; comma is the "safe default" for an absent or
unrecognized token. -/
def _delimiter_char (delim_token : Option String) : String :=
  match delim_token with
  | none => ","
  | some tok =>
    if tok = "" then ","
    else
      let t := tok.trim.toLower
      if t = "comma" ∨ t = "," then ","
      else if t = "tab" ∨ t = "\\t" then "\t"
      else if t = "space" ∨ t = "spaces" ∨ t = "whitespace" ∨ t = " " then " "
      else if t.length = 1 then t
      else ","

/-- One output data line as written by append_satellite_to_seabass: the row
values joined by the resolved delimiter character. -/
def outputDataLine (header : SBHeader) (row_vals : List String) : String :=
  String.intercalate (_delimiter_char header.delimiter) row_vals

/-- orchestrator._build_new_field_names: original fields, the two metric
columns, then mean/median/std/n columns per (nonblank) requested variable. -/
def _build_new_field_names (original_fields : List String)
    (variable_names : List String) : List String :=
  original_fields ++ ["matchup_min_distance_km", "matchup_min_dt_sec"]
    ++ variable_names.flatMap (fun v0 =>
        let v := v0.trim
        if v = "" then []
        else ["sat_" ++ v ++ "_mean", "sat_" ++ v ++ "_median",
              "sat_" ++ v ++ "_std", "sat_" ++ v ++ "_n"])

/-- The `orig_units` fallback of orchestrator._build_new_units: the header
units, replaced by placeholder units when absent, empty or of mismatched
length. -/
def origUnitsOf (header : SBHeader) (original_fields : List String) :
    List String :=
  match header.units with
  | none => List.replicate original_fields.length "unknown"
  | some us =>
      if us = [] ∨ us.length ≠ original_fields.length then
        List.replicate original_fields.length "unknown"
      else us

/-- orchestrator._build_new_units: original units (replaced by placeholder
units when absent, empty or of mismatched length), then km, s, and
unknown/unknown/unknown/1 per (nonblank) requested variable. -/
def _build_new_units (header : SBHeader) (original_fields : List String)
    (new_fields : List String) (variable_names : List String) : List String :=
  origUnitsOf header original_fields ++ ["km", "s"]
    ++ variable_names.flatMap (fun v0 =>
        if v0.trim = "" then [] else ["unknown", "unknown", "unknown", "1"])

/-- Strict row-major (lexicographic) order on pixel indices: the order in
which `np.where` enumerates mask positions. -/
def lexLt (a b : ℕ × ℕ) : Prop :=
  a.1 < b.1 ∨ (a.1 = b.1 ∧ a.2 < b.2)

/-- Reflexive row-major order on pixel indices ("no later in the scan"). -/
def lexLe (a b : ℕ × ℕ) : Prop :=
  a.1 < b.1 ∨ (a.1 = b.1 ∧ a.2 ≤ b.2)

/-! ## Supporting lemmas -/

theorem filterMap_toFin_map (v : List ℚ) :
    (v.map FloatVal.fin).filterMap FloatVal.toFin = v := by
  induction v with
  | nil => rfl
  | cons x xs ih => simpa [FloatVal.toFin] using ih

/-! ## Claim C5: the aggregator contract on finite collections -/

/-- C5: over any collection of finite values, the aggregator returns all
nulls with count 0 on the empty collection, count equal to the collection
size, standard deviation 0 for a single element, the sample-convention
standard deviation (square root of the squared deviations from the mean
divided by count - 1) for more than one element, and the arithmetic mean
and 50th percentile otherwise. -/
theorem C5_aggregator_contract (sqrtQ : ℚ → ℚ) (v : List ℚ) :
    aggregate_values sqrtQ [] = ⟨none, none, none, 0⟩
    ∧ (aggregate_values sqrtQ (v.map FloatVal.fin)).count = v.length
    ∧ (v.length = 1 → (aggregate_values sqrtQ (v.map FloatVal.fin)).std = some 0)
    ∧ (1 < v.length →
        (aggregate_values sqrtQ (v.map FloatVal.fin)).std
          = some (sqrtQ
              ((v.map (fun x => (x - v.sum / (v.length : ℚ)) ^ 2)).sum
                / ((v.length : ℚ) - 1))))
    ∧ (v ≠ [] →
        (aggregate_values sqrtQ (v.map FloatVal.fin)).mean
            = some (v.sum / (v.length : ℚ))
          ∧ (aggregate_values sqrtQ (v.map FloatVal.fin)).median
            = some (medianQ v)) := by
  have hfm := filterMap_toFin_map v
  refine ⟨rfl, ?_, ?_, ?_, ?_⟩ <;>
    cases v with
    | nil => simp [aggregate_values]
    | cons x xs =>
        simp only [aggregate_values, List.length_map, List.length_cons, hfm,
          sampleVar]
        simp_all [Nat.succ_ne_zero]

/-- Witness for C5 at concrete inputs. -/
theorem C5_witness :
    (aggregate_values id ([(1 : ℚ), 2, 3].map FloatVal.fin)).std
        = some (id
            ((([(1 : ℚ), 2, 3].map
                (fun x => (x - [(1 : ℚ), 2, 3].sum / (([(1 : ℚ), 2, 3].length : ℕ) : ℚ)) ^ 2)).sum
              / ((([(1 : ℚ), 2, 3].length : ℕ) : ℚ) - 1))))
    ∧ (aggregate_values id ([(5 : ℚ)].map FloatVal.fin)).std = some 0
    ∧ (aggregate_values id ([(1 : ℚ), 2, 3].map FloatVal.fin)).mean
        = some ([(1 : ℚ), 2, 3].sum / (([(1 : ℚ), 2, 3].length : ℕ) : ℚ)) :=
  ⟨(C5_aggregator_contract id [1, 2, 3]).2.2.2.1 (by decide),
   (C5_aggregator_contract id [5]).2.2.1 rfl,
   ((C5_aggregator_contract id [1, 2, 3]).2.2.2.2 (by decide)).1⟩

/-! ## Claim C10: the aggregator filters non-finite values itself -/

/-- C10: the aggregator excludes non-finite values before computing
statistics: count is the number of finite entries, an all-non-finite
collection yields the all-null zero-count result, and the statistics are
those of the finite entries alone. -/
theorem C10_aggregator_filters_nonfinite (sqrtQ : ℚ → ℚ) (vs : List FloatVal) :
    (aggregate_values sqrtQ vs).count = (vs.filterMap FloatVal.toFin).length
    ∧ (vs.filterMap FloatVal.toFin = [] →
        aggregate_values sqrtQ vs = ⟨none, none, none, 0⟩)
    ∧ aggregate_values sqrtQ vs
        = aggregate_values sqrtQ ((vs.filterMap FloatVal.toFin).map FloatVal.fin) := by
  have hfm := filterMap_toFin_map (vs.filterMap FloatVal.toFin)
  by_cases hvs : vs = []
  · subst hvs; exact ⟨rfl, fun _ => rfl, rfl⟩
  · by_cases hfin : vs.filterMap FloatVal.toFin = []
    · refine ⟨?_, fun _ => ?_, ?_⟩ <;>
        simp [aggregate_values, hvs, hfin, List.length_eq_zero]
    · have hlen : vs.length ≠ 0 := by
        intro h
        exact hvs (List.length_eq_zero.mp h)
      have hlen2 : ((vs.filterMap FloatVal.toFin).map FloatVal.fin).length ≠ 0 := by
        simp [List.length_eq_zero, hfin]
      refine ⟨?_, fun h => absurd h hfin, ?_⟩ <;>
        simp [aggregate_values, hlen, hlen2, hfm, hfin]

/-- Witness for C10 at concrete inputs. -/
theorem C10_witness :
    (aggregate_values id [FloatVal.nan, FloatVal.fin 2, FloatVal.inf]).count
        = ([FloatVal.nan, FloatVal.fin 2, FloatVal.inf].filterMap FloatVal.toFin).length
    ∧ aggregate_values id [FloatVal.nan, FloatVal.ninf] = ⟨none, none, none, 0⟩ :=
  ⟨(C10_aggregator_filters_nonfinite id [FloatVal.nan, FloatVal.fin 2, FloatVal.inf]).1,
   (C10_aggregator_filters_nonfinite id [FloatVal.nan, FloatVal.ninf]).2.1 rfl⟩

/-! ## Claim C6: header field/unit list integrity -/

theorem length_flatMap_four {f : String → List String}
    (hf : ∀ v, v.trim ≠ "" → (f v).length = 4) (l : List String)
    (hv : ∀ v ∈ l, v.trim ≠ "") : (l.flatMap f).length = 4 * l.length := by
  induction l with
  | nil => simp
  | cons x xs ih =>
      have hx := hf x (hv x (by simp))
      have ihx := ih (fun v h => hv v (by simp [h]))
      simp only [List.flatMap_cons, List.length_append, hx, ihx,
        List.length_cons]
      ring

theorem flatMap_units_of_nonblank (l : List String)
    (hv : ∀ v ∈ l, v.trim ≠ "") :
    l.flatMap (fun v0 =>
        if v0.trim = "" then [] else ["unknown", "unknown", "unknown", "1"])
      = l.flatMap (fun _ => ["unknown", "unknown", "unknown", "1"]) := by
  induction l with
  | nil => rfl
  | cons x xs ih =>
      have hx : x.trim ≠ "" := hv x (by simp)
      simp only [List.flatMap_cons, if_neg hx]
      rw [ih (fun v h => hv v (by simp [h]))]

/-- C6: for non-blank requested variable names, the output field list and
output unit list have the same length, namely the original field count plus
2 plus 4 per variable, and the appended units are km, s, then
unknown/unknown/unknown/1 per variable. -/
theorem C6_header_integrity (header : SBHeader)
    (original_fields variable_names : List String)
    (hv : ∀ v ∈ variable_names, v.trim ≠ "") :
    (_build_new_field_names original_fields variable_names).length
      = (_build_new_units header original_fields
          (_build_new_field_names original_fields variable_names)
          variable_names).length
    ∧ (_build_new_field_names original_fields variable_names).length
      = original_fields.length + 2 + 4 * variable_names.length
    ∧ (_build_new_units header original_fields
          (_build_new_field_names original_fields variable_names)
          variable_names).drop original_fields.length
      = "km" :: "s"
          :: variable_names.flatMap
              (fun _ => ["unknown", "unknown", "unknown", "1"]) := by
  have hfl1 : (variable_names.flatMap (fun v0 =>
      let v := v0.trim
      if v = "" then []
      else ["sat_" ++ v ++ "_mean", "sat_" ++ v ++ "_median",
            "sat_" ++ v ++ "_std", "sat_" ++ v ++ "_n"])).length
      = 4 * variable_names.length := by
    refine length_flatMap_four (fun v h => ?_) variable_names hv
    simp [h]
  have hfl2 := flatMap_units_of_nonblank variable_names hv
  have hfl2len : (variable_names.flatMap
      (fun _ => ["unknown", "unknown", "unknown", "1"])).length
      = 4 * variable_names.length :=
    @length_flatMap_four (fun _ => ["unknown", "unknown", "unknown", "1"])
      (fun _ _ => rfl) variable_names hv
  have hulen : (origUnitsOf header original_fields).length
      = original_fields.length := by
    cases h : header.units with
    | none => simp [origUnitsOf, h]
    | some us =>
        by_cases hc : us = [] ∨ us.length ≠ original_fields.length
        · simp [origUnitsOf, h, hc]
        · obtain ⟨h1, h2⟩ := not_or.mp hc
          simp [origUnitsOf, h, h1, not_ne_iff.mp h2]
  refine ⟨?_, ?_, ?_⟩
  · simp only [_build_new_field_names, _build_new_units, List.length_append,
      hfl1, hfl2, hfl2len, hulen, List.length_cons, List.length_nil]
  · simp only [_build_new_field_names, List.length_append, hfl1,
      List.length_cons, List.length_nil]
  · rw [_build_new_units, List.append_assoc, hfl2]
    rw [show ("km" :: "s" :: variable_names.flatMap
        (fun _ => ["unknown", "unknown", "unknown", "1"]) : List String)
      = ["km", "s"] ++ variable_names.flatMap
          (fun _ => ["unknown", "unknown", "unknown", "1"]) from rfl]
    rw [← hulen, List.drop_left]

/-- Witness for C6 at a concrete header and variable list. -/
theorem C6_witness :
    (_build_new_field_names ["lat", "lon"] ["chl"]).length
      = (_build_new_units ⟨none, some ["d", "d"], none, none, [], []⟩
          ["lat", "lon"] (_build_new_field_names ["lat", "lon"] ["chl"])
          ["chl"]).length
    ∧ (_build_new_field_names ["lat", "lon"] ["chl"]).length
      = (["lat", "lon"] : List String).length + 2 + 4 * (["chl"] : List String).length :=
  ⟨(C6_header_integrity ⟨none, some ["d", "d"], none, none, [], []⟩ ["lat", "lon"]
      ["chl"] (fun v hvm => by
        rw [List.mem_singleton] at hvm
        subst hvm
        with_unfolding_all decide)).1,
   (C6_header_integrity ⟨none, some ["d", "d"], none, none, [], []⟩ ["lat", "lon"]
      ["chl"] (fun v hvm => by
        rw [List.mem_singleton] at hvm
        subst hvm
        with_unfolding_all decide)).2.1⟩

/-! ## Claim C4: an invalid mode is silently replaced by "window" -/

/-- C4 (amended): match_record_to_l2 raises no configuration error for an
unrecognized mode; it behaves exactly as mode "window". -/
theorem C4_invalid_mode_defaults_to_window (dist : FloatVal → FloatVal → ℚ → ℚ → ℚ)
    (sqrtQ : ℚ → ℚ) (seabass_rec : SeaBASSRecord) (l2 : L2Grid)
    (variable_names : List String) (max_distance_km max_time_diff_sec : Option ℚ)
    (bad_flag_mask : Option ℕ) (mode : String)
    (h1 : mode ≠ "window") (h2 : mode ≠ "nearest") :
    match_record_to_l2 dist sqrtQ seabass_rec l2 variable_names max_distance_km
        max_time_diff_sec bad_flag_mask mode
      = match_record_to_l2 dist sqrtQ seabass_rec l2 variable_names
          max_distance_km max_time_diff_sec bad_flag_mask "window" := by
  simp [match_record_to_l2, h1, h2]

/-- Witness for C4 at a concrete invalid mode. -/
theorem C4_witness :
    match_record_to_l2 (fun _ _ _ _ => 0) id ⟨FloatVal.fin 0, FloatVal.fin 0, 0, none, []⟩
        ⟨[[0]], [[0]], [], none, none, none⟩ [] none none none "bogus"
      = match_record_to_l2 (fun _ _ _ _ => 0) id ⟨FloatVal.fin 0, FloatVal.fin 0, 0, none, []⟩
          ⟨[[0]], [[0]], [], none, none, none⟩ [] none none none "window" :=
  C4_invalid_mode_defaults_to_window (fun _ _ _ _ => 0) id ⟨FloatVal.fin 0, FloatVal.fin 0, 0, none, []⟩
    ⟨[[0]], [[0]], [], none, none, none⟩ [] none none none "bogus"
    (by decide) (by decide)

/-- C4 counterexample: with mode "bogus" the matchup of a record against a
one-pixel grid is processed under the default window mode and returns
computed columns; no fatal configuration error occurs and no run is
aborted. -/
theorem C4_counterexample :
    (match_record_to_l2 (fun _ _ _ _ => 0) id ⟨FloatVal.fin 0, FloatVal.fin 0, 0, none, []⟩
        ⟨[[0]], [[0]], [("chl", [[FloatVal.fin 2]])], none, none, none⟩
        ["chl"] none none none "bogus").matchup_min_distance_km = some 0
    ∧ (match_record_to_l2 (fun _ _ _ _ => 0) id ⟨FloatVal.fin 0, FloatVal.fin 0, 0, none, []⟩
        ⟨[[0]], [[0]], [("chl", [[FloatVal.fin 2]])], none, none, none⟩
        ["chl"] none none none "bogus").vars.lookup "chl"
      = some ⟨some 2, some 2, some 0, 1⟩ := by
  with_unfolding_all decide

/-! ## Claim C3: temporal mask time resolution -/

theorem getD_map_lt {f : α → β} (l : List α) (dflt : α) (db : β) (n : ℕ)
    (h : n < l.length) : (l.map f).getD n db = f (l.getD n dflt) := by
  induction l generalizing n with
  | nil => simp at h
  | cons x xs ih =>
      cases n with
      | zero => rfl
      | succ m => exact ih m (Nat.lt_of_succ_lt_succ h)

theorem getD_zip_lt (a : List α) (b : List β) (da : α) (db : β) (n : ℕ)
    (ha : n < a.length) (hb : n < b.length) :
    (a.zip b).getD n (da, db) = (a.getD n da, b.getD n db) := by
  induction a generalizing b n with
  | nil => simp at ha
  | cons x xs ih =>
      cases b with
      | nil => simp at hb
      | cons y ys =>
          cases n with
          | zero => rfl
          | succ m =>
              exact ih ys m (Nat.lt_of_succ_lt_succ ha)
                (Nat.lt_of_succ_lt_succ hb)

theorem getD_map_const_lt {b : β} (l : List α) (db : β) (n : ℕ)
    (h : n < l.length) : (l.map (fun _ => b)).getD n db = b := by
  induction l generalizing n with
  | nil => simp at h
  | cons x xs ih =>
      cases n with
      | zero => rfl
      | succ m => exact ih m (Nat.lt_of_succ_lt_succ h)

theorem get2D_allTrue (xss : List (List α)) (r k : ℕ) (hr : r < xss.length)
    (hk : k < (xss.getD r []).length) :
    get2D (allTrue xss) false r k = true := by
  rw [get2D, allTrue, getD_map_lt xss [] [] r hr,
    getD_map_const_lt (xss.getD r []) false k hk]

/-- Lengths of two arrays of equal shape agree. -/
theorem length_eq_of_shapeOf_eq {a b : List (List α)}
    (h : shapeOf a = shapeOf b) : a.length = b.length := by
  simpa [shapeOf] using congrArg List.length h

/-- Row lengths of two arrays of equal shape agree. -/
theorem row_length_eq_of_shapeOf_eq {a b : List (List α)}
    (h : shapeOf a = shapeOf b) (r : ℕ) (hr : r < a.length) :
    (a.getD r []).length = (b.getD r []).length := by
  have hl := length_eq_of_shapeOf_eq h
  have h1 := getD_map_lt (f := List.length) a [] 0 r hr
  have h2 := getD_map_lt (f := List.length) b [] 0 r (hl ▸ hr)
  rw [shapeOf, shapeOf] at h
  rw [← h1, ← h2, h]

/-- C3 (amended): with a positive tolerance and an in-range pixel, the
temporal mask is resolved from a same-shape per-pixel time array first,
else from a per-line 1-D time array broadcast across the row, and when the
grid has no time array at all the mask entry is True - the granule
fallback timestamp is never consulted and no tolerance is enforced
against it. -/
theorem C3_time_mask_resolution (l2 : L2Grid) (c tol : ℚ) (htol : 0 < tol)
    (r k : ℕ) (hr : r < l2.lat.length) (hk : k < (l2.lat.getD r []).length) :
    (∀ ts, l2.time = some (.twoD ts) → shapeOf ts = shapeOf l2.lat →
      get2D (build_time_mask l2 (some c) (some tol)) false r k
        = decide (|get2D ts 0 r k - c| ≤ tol))
    ∧ (∀ ts, l2.time = some (.oneD ts) → ts.length = l2.lat.length →
      get2D (build_time_mask l2 (some c) (some tol)) false r k
        = decide (|ts.getD r 0 - c| ≤ tol))
    ∧ (l2.time = none →
      get2D (build_time_mask l2 (some c) (some tol)) false r k = true) := by
  refine ⟨?_, ?_, ?_⟩
  · intro ts ht hsh
    simp only [build_time_mask, ht]
    rw [if_neg (not_le.mpr htol), if_pos hsh]
    have hr' : r < ts.length := (length_eq_of_shapeOf_eq hsh) ▸ hr
    have hk' : k < (ts.getD r []).length := by
      rw [row_length_eq_of_shapeOf_eq hsh r hr']
      exact hk
    rw [get2D, getD_map_lt ts [] [] r hr',
      getD_map_lt (ts.getD r []) 0 false k hk', get2D]
  · intro ts ht hlen
    simp only [build_time_mask, ht]
    rw [if_neg (not_le.mpr htol), if_pos hlen]
    have hrz : r < (l2.lat.zip ts).length := by
      rw [List.length_zip, hlen]
      simpa using hr
    rw [get2D, getD_map_lt (l2.lat.zip ts) ([], 0) [] r hrz,
      getD_zip_lt l2.lat ts [] 0 r hr (hlen ▸ hr),
      getD_map_lt (l2.lat.getD r []) default false k hk]
  · intro ht
    simp only [build_time_mask, ht]
    exact get2D_allTrue l2.lat r k hr hk

/-- Witness for C3 at concrete grids. -/
theorem C3_witness :
    get2D (build_time_mask ⟨[[0]], [[0]], [], none,
        some (.twoD [[30]]), none⟩ (some 0) (some 60)) false 0 0
      = decide (|get2D [[(30 : ℚ)]] 0 0 0 - 0| ≤ 60)
    ∧ get2D (build_time_mask ⟨[[0]], [[0]], [], none, none, some 999999⟩
        (some 0) (some 60)) false 0 0 = true :=
  ⟨(C3_time_mask_resolution ⟨[[0]], [[0]], [], none, some (.twoD [[30]]), none⟩
      0 60 (by norm_num) 0 0 (by decide) (by decide)).1 [[30]] rfl rfl,
   (C3_time_mask_resolution ⟨[[0]], [[0]], [], none, none, some 999999⟩
      0 60 (by norm_num) 0 0 (by decide) (by decide)).2.2 rfl⟩

/-- C3 counterexample: a grid with no per-pixel or per-line time array but
with a granule fallback timestamp violating the tolerance still gets an
all-True temporal mask; the claimed enforcement against the fallback
timestamp does not happen. -/
theorem C3_counterexample :
    build_time_mask ⟨[[0]], [[0]], [], none, none, some 999999⟩
        (some 0) (some 60) = [[true]]
    ∧ (⟨[[0]], [[0]], [], none, none, some 999999⟩ : L2Grid).time = none
    ∧ ¬(|(999999 : ℚ) - 0| ≤ 60) := by
  with_unfolding_all decide

/-! ## Claim C1: empty selections are fully null, nonempty selections
compute metrics -/

theorem lookup_map_pair {β : Type} (f : String → β) (l : List String)
    (k : String) (hk : k ∈ l) :
    (l.map (fun v => (v, f v))).lookup k = some (f k) := by
  induction l with
  | nil => simp at hk
  | cons x xs ih =>
      by_cases hx : k = x
      · subst hx
        simp [List.lookup]
      · have hk' : k ∈ xs := by
          rcases List.mem_cons.mp hk with h | h
          · exact absurd h hx
          · exact h
        simpa [List.lookup, beq_false_of_ne hx] using ih hk'

theorem mem_cleaned_vars (variable_names : List String) (v : String)
    (hv : v ∈ variable_names) (ht : v.trim ≠ "") :
    v.trim ∈ (variable_names.filter (fun w => w.trim ≠ "")).map String.trim :=
  List.mem_map_of_mem _ (List.mem_filter.mpr ⟨hv, by simpa using ht⟩)

theorem compute_time_metrics_ne_none_iff (seabass_rec : SeaBASSRecord)
    (l2 : L2Grid) (p : ℕ × ℕ) (ps : List (ℕ × ℕ)) :
    (_compute_time_metrics seabass_rec l2 (p :: ps) ≠ none)
      ↔ timeUsable l2 = true := by
  cases h : l2.time with
  | none => simp [_compute_time_metrics, timeUsable, h]
  | some ta =>
      cases ta with
      | twoD ts =>
          by_cases hsh : shapeOf ts = shapeOf l2.lat <;>
            simp [_compute_time_metrics, timeUsable, h, hsh]
      | oneD ts =>
          by_cases hlen : ts.length = l2.lat.length <;>
            simp [_compute_time_metrics, timeUsable, h, hlen]

theorem compute_time_metrics_empty (seabass_rec : SeaBASSRecord)
    (l2 : L2Grid) : _compute_time_metrics seabass_rec l2 [] = none := by
  cases h : l2.time <;> simp [_compute_time_metrics, h]

/-- C1 (amended): in both modes, when no pixel passes the combined mask the
result is fully null (both metrics null, every requested variable all-null
with count 0); when at least one pixel passes, matchup_min_distance_km is a
computed non-null value, and matchup_min_dt_sec is non-null exactly when
the grid carries a usable (per-pixel same-shape or per-line) time array,
and null otherwise. -/
theorem C1_selection_null_pattern (dist : FloatVal → FloatVal → ℚ → ℚ → ℚ) (sqrtQ : ℚ → ℚ)
    (seabass_rec : SeaBASSRecord) (l2 : L2Grid) (variable_names : List String)
    (max_distance_km max_time_diff_sec : Option ℚ) (bad_flag_mask : Option ℕ)
    (mode : String) (hmode : mode = "window" ∨ mode = "nearest") :
    let res := match_record_to_l2 dist sqrtQ seabass_rec l2 variable_names
      max_distance_km max_time_diff_sec bad_flag_mask mode
    let idxs := maskIndices (build_valid_pixel_mask dist l2 seabass_rec
      max_distance_km max_time_diff_sec bad_flag_mask)
    (idxs = [] →
      res.matchup_min_distance_km = none ∧ res.matchup_min_dt_sec = none
      ∧ ∀ v ∈ variable_names, v.trim ≠ "" →
          res.vars.lookup v.trim = some nullStats)
    ∧ (idxs ≠ [] →
      res.matchup_min_distance_km ≠ none
      ∧ (res.matchup_min_dt_sec ≠ none ↔ timeUsable l2 = true)) := by
  dsimp only
  rcases hmode with h | h <;> subst h
  · -- mode = "window"
    simp only [match_record_to_l2, ite_self]
    rw [if_neg (show ¬ ("window" : String) = "nearest" by decide)]
    constructor
    · intro hidx
      rw [hidx]
      refine ⟨rfl, compute_time_metrics_empty seabass_rec l2, ?_⟩
      intro v hv ht
      rw [lookup_map_pair _ _ _ (mem_cleaned_vars variable_names v hv ht)]
      cases hl : List.lookup v.trim l2.variables <;> rfl
    · intro hidx
      rcases hne : maskIndices (build_valid_pixel_mask dist l2 seabass_rec
          max_distance_km max_time_diff_sec bad_flag_mask) with _ | ⟨p, ps⟩
      · exact absurd hne hidx
      · exact ⟨by simp [_compute_distance_metrics],
          compute_time_metrics_ne_none_iff seabass_rec l2 p ps⟩
  · -- mode = "nearest"
    simp only [match_record_to_l2, String.reduceEq, or_true, if_true]
    rcases hne : maskIndices (build_valid_pixel_mask dist l2 seabass_rec
        max_distance_km max_time_diff_sec bad_flag_mask) with _ | ⟨p, ps⟩
    · simp only [find_nearest_valid_pixel, hne]
      refine ⟨fun _ => ⟨by trivial, by trivial, ?_⟩, fun hc => absurd rfl hc⟩
      intro v hv ht
      rw [lookup_map_pair _ _ _ (mem_cleaned_vars variable_names v hv ht)]
    · simp only [find_nearest_valid_pixel, hne]
      refine ⟨fun hc => absurd hc (by simp), fun _ => ⟨by simp, ?_⟩⟩
      cases h : l2.time with
      | none => simp [timeUsable, h]
      | some ta =>
          cases ta with
          | twoD ts =>
              by_cases hsh : shapeOf ts = shapeOf l2.lat <;>
                simp [timeUsable, h, hsh]
          | oneD ts =>
              by_cases hlen : ts.length = l2.lat.length <;>
                simp [timeUsable, h, hlen]

/-- Witness for C1: a one-pixel grid whose pixel passes (metrics computed)
and a parameterization where no pixel passes (fully null result). -/
theorem C1_witness :
    ((match_record_to_l2 (fun _ _ _ _ => 1) id ⟨FloatVal.fin 0, FloatVal.fin 0, 0, none, []⟩
        ⟨[[0]], [[0]], [("chl", [[FloatVal.fin 2]])], none, none, none⟩
        ["chl"] (some 5) none none "window").matchup_min_distance_km ≠ none
      ∧ ((match_record_to_l2 (fun _ _ _ _ => 1) id ⟨FloatVal.fin 0, FloatVal.fin 0, 0, none, []⟩
        ⟨[[0]], [[0]], [("chl", [[FloatVal.fin 2]])], none, none, none⟩
        ["chl"] (some 5) none none "window").matchup_min_dt_sec ≠ none
          ↔ timeUsable ⟨[[0]], [[0]], [("chl", [[FloatVal.fin 2]])], none,
              none, none⟩ = true))
    ∧ (match_record_to_l2 (fun _ _ _ _ => 10) id ⟨FloatVal.fin 0, FloatVal.fin 0, 0, none, []⟩
        ⟨[[0]], [[0]], [("chl", [[FloatVal.fin 2]])], none, none, none⟩
        ["chl"] (some 5) none none "nearest").vars.lookup ("chl".trim)
      = some nullStats :=
  ⟨(C1_selection_null_pattern (fun _ _ _ _ => 1) id ⟨FloatVal.fin 0, FloatVal.fin 0, 0, none, []⟩
      ⟨[[0]], [[0]], [("chl", [[FloatVal.fin 2]])], none, none, none⟩
      ["chl"] (some 5) none none "window" (Or.inl rfl)).2
      (by with_unfolding_all decide),
   ((C1_selection_null_pattern (fun _ _ _ _ => 10) id ⟨FloatVal.fin 0, FloatVal.fin 0, 0, none, []⟩
      ⟨[[0]], [[0]], [("chl", [[FloatVal.fin 2]])], none, none, none⟩
      ["chl"] (some 5) none none "nearest" (Or.inr rfl)).1
      (by with_unfolding_all decide)).2.2 "chl" (List.mem_singleton.mpr rfl)
      (by with_unfolding_all decide)⟩

/-- C1 counterexample: a record whose one-pixel selection is nonempty (the
pixel passes all three filters) against a grid with no time array yields a
null matchup_min_dt_sec, contradicting the claim that both metric columns
are computed non-null values whenever a pixel passes. -/
theorem C1_counterexample :
    maskIndices (build_valid_pixel_mask (fun _ _ _ _ => 0)
        ⟨[[0]], [[0]], [("chl", [[FloatVal.fin 2]])], none, none, none⟩
        ⟨FloatVal.fin 0, FloatVal.fin 0, 0, none, []⟩ none (some 60) none) = [(0, 0)]
    ∧ (match_record_to_l2 (fun _ _ _ _ => 0) id ⟨FloatVal.fin 0, FloatVal.fin 0, 0, none, []⟩
        ⟨[[0]], [[0]], [("chl", [[FloatVal.fin 2]])], none, none, none⟩
        ["chl"] none (some 60) none "window").matchup_min_dt_sec = none := by
  with_unfolding_all decide

/-! ## Claim C2: nearest-mode pixel selection -/

theorem lexLe_of_lexLt {a b : ℕ × ℕ} (h : lexLt a b) : lexLe a b := by
  rcases h with h | ⟨h1, h2⟩
  · exact Or.inl h
  · exact Or.inr ⟨h1, Nat.le_of_lt h2⟩

theorem lexLe_refl (a : ℕ × ℕ) : lexLe a a := Or.inr ⟨rfl, Nat.le_refl _⟩

theorem selectNP_mem (bp : (ℕ × ℕ) × ℚ) (l : List ((ℕ × ℕ) × ℚ)) :
    selectNP bp l ∈ bp :: l := by
  induction l generalizing bp with
  | nil => simp [selectNP]
  | cons q rest ih =>
      rw [selectNP]
      by_cases h : q.2 < bp.2
      · rw [if_pos h]
        rcases List.mem_cons.mp (ih q) with h1 | h1
        · simp [h1]
        · simp [List.mem_cons, h1]
      · rw [if_neg h]
        rcases List.mem_cons.mp (ih bp) with h1 | h1
        · simp [h1]
        · simp [List.mem_cons, h1]

theorem selectNP_le (bp : (ℕ × ℕ) × ℚ) (l : List ((ℕ × ℕ) × ℚ)) :
    ∀ x ∈ bp :: l, (selectNP bp l).2 ≤ x.2 := by
  induction l generalizing bp with
  | nil =>
      intro x hx
      rcases List.mem_cons.mp hx with h1 | h1
      · subst h1; simp [selectNP]
      · simp at h1
  | cons q rest ih =>
      intro x hx
      rw [selectNP]
      by_cases h : q.2 < bp.2
      · rw [if_pos h]
        rcases List.mem_cons.mp hx with h1 | h1
        · rw [h1]
          exact le_trans (ih q q (List.mem_cons_self q rest)) (le_of_lt h)
        · exact ih q x h1
      · rw [if_neg h]
        rcases List.mem_cons.mp hx with h1 | h1
        · rw [h1]
          exact ih bp bp (List.mem_cons_self bp rest)
        · rcases List.mem_cons.mp h1 with h2 | h2
          · rw [h2]
            exact le_trans (ih bp bp (List.mem_cons_self bp rest))
              (le_of_not_lt h)
          · exact ih bp x (List.mem_cons_of_mem bp h2)

theorem selectNP_eq_self (bp : (ℕ × ℕ) × ℚ) (l : List ((ℕ × ℕ) × ℚ))
    (h : bp.2 ≤ (selectNP bp l).2) : selectNP bp l = bp := by
  induction l generalizing bp with
  | nil => rfl
  | cons q rest ih =>
      rw [selectNP] at h ⊢
      by_cases hq : q.2 < bp.2
      · rw [if_pos hq] at h
        exact absurd
          (lt_of_le_of_lt
            (le_trans h (selectNP_le q rest q (List.mem_cons_self q rest))) hq)
          (lt_irrefl bp.2)
      · rw [if_neg hq] at h ⊢
        exact ih bp h

theorem selectNP_first (bp : (ℕ × ℕ) × ℚ) (l : List ((ℕ × ℕ) × ℚ))
    (horder : (bp :: l).Pairwise (fun x y => lexLt x.1 y.1)) :
    ∀ x ∈ bp :: l, x.2 = (selectNP bp l).2 → lexLe (selectNP bp l).1 x.1 := by
  induction l generalizing bp with
  | nil =>
      intro x hx hval
      rcases List.mem_cons.mp hx with h1 | h1
      · subst h1; simp only [selectNP]; exact lexLe_refl _
      · simp at h1
  | cons q rest ih =>
      intro x hx hval
      rw [selectNP] at hval ⊢
      by_cases hq : q.2 < bp.2
      · rw [if_pos hq] at hval ⊢
        rcases List.mem_cons.mp hx with h1 | h1
        · exfalso
          have h2 := selectNP_le q rest q (List.mem_cons_self q rest)
          have h3 : x.2 = bp.2 := congrArg Prod.snd h1
          linarith [hval, h2, hq, h3]
        · exact ih q horder.of_cons x h1 hval
      · rw [if_neg hq] at hval ⊢
        rcases List.mem_cons.mp hx with h1 | h1
        · subst h1
          rw [selectNP_eq_self x rest (le_of_eq hval)]
          exact lexLe_refl _
        · rcases List.mem_cons.mp h1 with h2 | h2
          · subst h2
            have hD := selectNP_eq_self bp rest (hval ▸ le_of_not_lt hq)
            rw [hD]
            exact lexLe_of_lexLt
              (List.rel_of_pairwise_cons horder
                (List.mem_cons_self x rest))
          · have hsub : (bp :: rest).Sublist (bp :: q :: rest) :=
              List.Sublist.cons₂ bp (List.sublist_cons_self q rest)
            exact ih bp (horder.sublist hsub) x
              (List.mem_cons_of_mem bp h2) hval

theorem mem_rowIndicesAux {p : ℕ × ℕ} (r : ℕ) :
    ∀ (c : ℕ) (bs : List Bool), p ∈ rowIndicesAux r c bs →
      p.1 = r ∧ c ≤ p.2 ∧ bs.getD (p.2 - c) false = true := by
  intro c bs
  induction bs generalizing c with
  | nil => simp [rowIndicesAux]
  | cons b tail ih =>
      intro hmem
      rw [rowIndicesAux] at hmem
      cases b with
      | false =>
          simp only [Bool.false_eq_true, if_false] at hmem
          obtain ⟨h1, h2, h3⟩ := ih (c + 1) hmem
          refine ⟨h1, by omega, ?_⟩
          rw [show p.2 - c = (p.2 - (c + 1)) + 1 by omega]
          simpa using h3
      | true =>
          simp only [if_true] at hmem
          rcases List.mem_cons.mp hmem with h1 | h1
          · subst h1
            exact ⟨rfl, Nat.le_refl _, by simp⟩
          · obtain ⟨h1, h2, h3⟩ := ih (c + 1) h1
            refine ⟨h1, by omega, ?_⟩
            rw [show p.2 - c = (p.2 - (c + 1)) + 1 by omega]
            simpa using h3

theorem rowIndicesAux_pairwise (r : ℕ) :
    ∀ (c : ℕ) (bs : List Bool), (rowIndicesAux r c bs).Pairwise lexLt := by
  intro c bs
  induction bs generalizing c with
  | nil => simp [rowIndicesAux]
  | cons b tail ih =>
      rw [rowIndicesAux]
      cases b with
      | false => simpa using ih (c + 1)
      | true =>
          simp only [if_true]
          refine List.Pairwise.cons ?_ (ih (c + 1))
          intro p hp
          obtain ⟨h1, h2, _⟩ := mem_rowIndicesAux r (c + 1) tail hp
          exact Or.inr ⟨h1.symm, by omega⟩

theorem mem_maskIndicesAux {p : ℕ × ℕ} :
    ∀ (r : ℕ) (rows : List (List Bool)), p ∈ maskIndicesAux r rows →
      r ≤ p.1 ∧ (rows.getD (p.1 - r) []).getD p.2 false = true := by
  intro r rows
  induction rows generalizing r with
  | nil => simp [maskIndicesAux]
  | cons row rest ih =>
      intro hmem
      rw [maskIndicesAux] at hmem
      rcases List.mem_append.mp hmem with h1 | h1
      · obtain ⟨h1, h2, h3⟩ := mem_rowIndicesAux r 0 row h1
        refine ⟨Nat.le_of_eq h1.symm, ?_⟩
        rw [h1, Nat.sub_self]
        simpa using h3
      · obtain ⟨h1, h2⟩ := ih (r + 1) h1
        refine ⟨by omega, ?_⟩
        rw [show p.1 - r = (p.1 - (r + 1)) + 1 by omega]
        simpa using h2

theorem maskIndicesAux_pairwise :
    ∀ (r : ℕ) (rows : List (List Bool)), (maskIndicesAux r rows).Pairwise lexLt := by
  intro r rows
  induction rows generalizing r with
  | nil => simp [maskIndicesAux]
  | cons row rest ih =>
      rw [maskIndicesAux]
      refine List.pairwise_append.mpr
        ⟨rowIndicesAux_pairwise r 0 row, ih (r + 1), ?_⟩
      intro a ha b hb
      have h1 := (mem_rowIndicesAux r 0 row ha).1
      have h2 := (mem_maskIndicesAux (r + 1) rest hb).1
      exact Or.inl (by omega)

theorem maskIndices_pairwise (m : List (List Bool)) :
    (maskIndices m).Pairwise lexLt :=
  maskIndicesAux_pairwise 0 m

theorem mem_maskIndices_true {p : ℕ × ℕ} {m : List (List Bool)}
    (h : p ∈ maskIndices m) : get2D m false p.1 p.2 = true := by
  have := (mem_maskIndicesAux 0 m h).2
  simpa [get2D] using this

/-- C2: in nearest mode, whenever at least one pixel passes the combined
spatial/temporal/flag mask, find_nearest_valid_pixel selects a mask-passing
pixel whose distance to the record is minimal among all mask-passing
pixels, and among the pixels attaining the minimum it selects the first one
in row-major scan order. -/
theorem C2_nearest_selects_first_minimum (dist : FloatVal → FloatVal → ℚ → ℚ → ℚ)
    (seabass_rec : SeaBASSRecord) (l2 : L2Grid)
    (max_distance_km max_time_diff_sec : Option ℚ) (bad_flag_mask : Option ℕ)
    (hne : maskIndices (build_valid_pixel_mask dist l2 seabass_rec
      max_distance_km max_time_diff_sec bad_flag_mask) ≠ []) :
    let mask := build_valid_pixel_mask dist l2 seabass_rec max_distance_km
      max_time_diff_sec bad_flag_mask
    let dOf := fun q : ℕ × ℕ => dist seabass_rec.lat seabass_rec.lon
      (get2D l2.lat 0 q.1 q.2) (get2D l2.lon 0 q.1 q.2)
    ∃ p, find_nearest_valid_pixel dist l2 seabass_rec max_distance_km
        max_time_diff_sec bad_flag_mask = some p
      ∧ p ∈ maskIndices mask
      ∧ get2D mask false p.1 p.2 = true
      ∧ (∀ q ∈ maskIndices mask, dOf p ≤ dOf q)
      ∧ (∀ q ∈ maskIndices mask, dOf q = dOf p → lexLe p q) := by
  dsimp only
  rcases h : maskIndices (build_valid_pixel_mask dist l2 seabass_rec
      max_distance_km max_time_diff_sec bad_flag_mask) with _ | ⟨rc, rest⟩
  · exact absurd h hne
  · set dOf := fun q : ℕ × ℕ => dist seabass_rec.lat seabass_rec.lon
      (get2D l2.lat 0 q.1 q.2) (get2D l2.lon 0 q.1 q.2) with hdOf
    set L := rest.map (fun q => (q, dOf q)) with hL
    set sel := selectNP (rc, dOf rc) L with hsel
    have hLval : ∀ x ∈ (rc, dOf rc) :: L, x.2 = dOf x.1 := by
      intro x hx
      rcases List.mem_cons.mp hx with h1 | h1
      · subst h1; rfl
      · obtain ⟨q, _, rfl⟩ := List.mem_map.mp h1; rfl
    have hmemL : sel ∈ (rc, dOf rc) :: L := selectNP_mem _ _
    have hselval : sel.2 = dOf sel.1 := hLval sel hmemL
    have hselfst : sel.1 ∈ rc :: rest := by
      rcases List.mem_cons.mp hmemL with h1 | h1
      · rw [h1]; exact List.mem_cons_self _ _
      · obtain ⟨q, hq, he⟩ := List.mem_map.mp h1
        have : q = sel.1 := congrArg Prod.fst he
        rw [← this]
        exact List.mem_cons_of_mem _ hq
    have hpairmem : ∀ q ∈ rc :: rest, (q, dOf q) ∈ (rc, dOf rc) :: L := by
      intro q hq
      rcases List.mem_cons.mp hq with h1 | h1
      · subst h1; exact List.mem_cons_self _ _
      · exact List.mem_cons_of_mem _ (List.mem_map_of_mem _ h1)
    refine ⟨sel.1, ?_, ?_, ?_, ?_, ?_⟩
    · simp only [find_nearest_valid_pixel, h]
    · exact hselfst
    · exact mem_maskIndices_true (by rw [h]; exact hselfst)
    · intro q hq
      have hle := selectNP_le (rc, dOf rc) L (q, dOf q) (hpairmem q hq)
      calc dOf sel.1 = sel.2 := hselval.symm
        _ ≤ dOf q := hle
    · intro q hq heq
      have horder : ((rc, dOf rc) :: L).Pairwise
          (fun x y => lexLt x.1 y.1) := by
        have hmi : (rc :: rest).Pairwise lexLt := by
          rw [← h]
          exact maskIndices_pairwise (build_valid_pixel_mask dist l2
            seabass_rec max_distance_km max_time_diff_sec bad_flag_mask)
        have hmap : (rc, dOf rc) :: L = (rc :: rest).map (fun q => (q, dOf q)) := by
          simp [hL]
        rw [hmap, List.pairwise_map]
        exact hmi
      exact selectNP_first (rc, dOf rc) L horder (q, dOf q) (hpairmem q hq)
        (heq.trans hselval.symm)

/-- Witness for C2: a grid with two equidistant passing pixels; the theorem
applies and yields the first pixel in scan order. -/
theorem C2_witness :
    let mask := build_valid_pixel_mask (fun _ _ _ _ => 1)
      ⟨[[0, 0]], [[0, 0]], [], none, none, none⟩ ⟨FloatVal.fin 0, FloatVal.fin 0, 0, none, []⟩
      (some 5) none none
    let dOf := fun q : ℕ × ℕ => (fun (_ _ : FloatVal) (_ _ : ℚ) => (1 : ℚ))
      (⟨FloatVal.fin 0, FloatVal.fin 0, 0, none, []⟩ : SeaBASSRecord).lat
      (⟨FloatVal.fin 0, FloatVal.fin 0, 0, none, []⟩ : SeaBASSRecord).lon
      (get2D [[(0 : ℚ), 0]] 0 q.1 q.2) (get2D [[(0 : ℚ), 0]] 0 q.1 q.2)
    ∃ p, find_nearest_valid_pixel (fun _ _ _ _ => 1)
        ⟨[[0, 0]], [[0, 0]], [], none, none, none⟩ ⟨FloatVal.fin 0, FloatVal.fin 0, 0, none, []⟩
        (some 5) none none = some p
      ∧ p ∈ maskIndices mask
      ∧ get2D mask false p.1 p.2 = true
      ∧ (∀ q ∈ maskIndices mask, dOf p ≤ dOf q)
      ∧ (∀ q ∈ maskIndices mask, dOf q = dOf p → lexLe p q) :=
  C2_nearest_selects_first_minimum (fun _ _ _ _ => 1)
    ⟨FloatVal.fin 0, FloatVal.fin 0, 0, none, []⟩ ⟨[[0, 0]], [[0, 0]], [], none, none, none⟩
    (some 5) none none (by with_unfolding_all decide)

/-! ## Claim C7: row-skip conditions of the body parser -/

/-- C7 (amended): a token count differing from the declared field count is
not a skip condition - such a row is kept whenever it has at least two
tokens and its coordinates and timestamp derive (extra tokens are ignored,
missing trailing fields become null).  A row is silently skipped when it
has fewer than two tokens, unusable coordinates, or a timestamp chain
yielding nothing; a calendar-invalid date or out-of-range time instead
raises an uncaught ValueError that aborts the entire parse (it does not
skip the row). -/
theorem C7_row_skip_conditions (fields_lc : List String) (delimiter : String)
    (missing_token : Option String) (has_datetime has_date has_time : Bool)
    (header_date header_time : Option (ℕ × ℕ × ℕ)) (line : String) :
    ((splitParts delimiter line).length < 2 →
      parseDataRow fields_lc delimiter missing_token has_datetime has_date
        has_time header_date header_time line = .ok none)
    ∧ (rowCoords fields_lc (splitParts delimiter line) missing_token = none →
      parseDataRow fields_lc delimiter missing_token has_datetime has_date
        has_time header_date header_time line = .ok none)
    ∧ (rowTime fields_lc (splitParts delimiter line) has_datetime has_date
        has_time header_date header_time = .ok none →
      parseDataRow fields_lc delimiter missing_token has_datetime has_date
        has_time header_date header_time line = .ok none)
    ∧ (∀ ll e, ¬ (splitParts delimiter line).length < 2 →
        rowCoords fields_lc (splitParts delimiter line) missing_token
          = some ll →
        rowTime fields_lc (splitParts delimiter line) has_datetime has_date
          has_time header_date header_time = .error e →
        parseDataRow fields_lc delimiter missing_token has_datetime has_date
          has_time header_date header_time line = .error e)
    ∧ (∀ ll dt, ¬ (splitParts delimiter line).length < 2 →
        rowCoords fields_lc (splitParts delimiter line) missing_token
          = some ll →
        rowTime fields_lc (splitParts delimiter line) has_datetime has_date
          has_time header_date header_time = .ok (some dt) →
        parseDataRow fields_lc delimiter missing_token has_datetime has_date
            has_time header_date header_time line
          = .ok (some ⟨ll.1, ll.2, timestampOf dt,
              rowDepth fields_lc (splitParts delimiter line) missing_token,
              rowVariables fields_lc (splitParts delimiter line)
                missing_token⟩)) := by
  refine ⟨?_, ?_, ?_, ?_, ?_⟩
  · intro h
    simp [parseDataRow, if_pos h]
  · intro h
    by_cases hl : (splitParts delimiter line).length < 2 <;>
      simp [parseDataRow, hl, h]
  · intro h
    by_cases hl : (splitParts delimiter line).length < 2
    · simp [parseDataRow, hl]
    · cases hc : rowCoords fields_lc (splitParts delimiter line) missing_token
        <;> simp [parseDataRow, hl, hc, h]
  · intro ll e h1 h2 h3
    simp [parseDataRow, h1, h2, h3]
  · intro ll dt h1 h2 h3
    simp [parseDataRow, h1, h2, h3]

set_option maxRecDepth 4000 in
/-- Witness for C7: a comma row with five tokens against four declared
fields is parsed into a record (not skipped). -/
theorem C7_witness :
    parseDataRow ["lat", "lon", "date", "time"] "," none false true true
        none none "1,2,20240101,12:00:00,extra"
      = .ok (some ⟨FloatVal.fin 1, FloatVal.fin 2,
          timestampOf ⟨2024, 1, 1, 12, 0, 0⟩,
          rowDepth ["lat", "lon", "date", "time"]
            (splitParts "," "1,2,20240101,12:00:00,extra") none,
          rowVariables ["lat", "lon", "date", "time"]
            (splitParts "," "1,2,20240101,12:00:00,extra") none⟩) :=
  (C7_row_skip_conditions ["lat", "lon", "date", "time"] "," none false true
      true none none "1,2,20240101,12:00:00,extra").2.2.2.2
    (FloatVal.fin 1, FloatVal.fin 2) ⟨2024, 1, 1, 12, 0, 0⟩
    (by with_unfolding_all decide) (by with_unfolding_all decide)
    (by with_unfolding_all decide)

/-- C7 counterexample: a full parse keeps a data row whose token count (5)
differs from the declared field count (4); the claim that such rows are
skipped is false. -/
theorem C7_counterexample :
    (splitParts "," "1,2,20240101,12:00:00,extra").length = 5
    ∧ (["lat", "lon", "date", "time"] : List String).length = 4
    ∧ (parse_seabass_file ["/begin_header", "/fields=lat,lon,date,time",
        "/delimiter=comma", "/end_header",
        "1,2,20240101,12:00:00,extra"]).toOption.map
          (fun d => d.records.length) = some 1 := by
  with_unfolding_all decide

/-! ## Claim C8: zero data rows are fatal only without a declared
delimiter (and a header date can abort independently) -/

/-- C8 (amended): with a valid fields declaration and zero data rows,
parsing fails with the no-data-lines error exactly when the header declares
no (normalizable) delimiter token - the failure belongs to delimiter
detection; with a declared delimiter and a non-crashing header
start_date/date value, parsing succeeds with an empty record list; a
calendar-invalid header start_date/date value aborts the parse with its
uncaught date error even with a declared delimiter and zero rows. -/
theorem C8_zero_rows_fatal_only_without_delimiter (st : ScanState)
    (fields : List String) (hf : st.fields = some fields) (hne : fields ≠ [])
    (hd : st.data_lines = []) :
    (∀ δ hd0, _normalize_delimiter st.delimiter = some δ →
        headerDateOf st.kv = .ok hd0 →
        parseAfterScan st = .ok ⟨headerOf st, []⟩)
    ∧ (_normalize_delimiter st.delimiter = none →
        parseAfterScan st
          = .error "SeaBASS file has no data lines after /end_header")
    ∧ (∀ δ e, _normalize_delimiter st.delimiter = some δ →
        headerDateOf st.kv = .error e →
        parseAfterScan st = .error e) := by
  refine ⟨?_, ?_, ?_⟩
  · intro δ hd0 hδ hh
    simp [parseAfterScan, hf, hd, resolveDelimiter, hδ, hh, if_neg hne,
      parseRows]
  · intro hδ
    simp [parseAfterScan, hf, hd, resolveDelimiter, hδ, if_neg hne]
  · intro δ e hδ hh
    simp [parseAfterScan, hf, hd, resolveDelimiter, hδ, hh, if_neg hne]

/-- Witness for C8: a scan state with a declared comma delimiter and no
date keys parses to an empty dataset, and the same state with a
month-13 /date= header value aborts with the uncaught date error. -/
theorem C8_witness :
    parseAfterScan ⟨true, true, some ["lat", "lon"], none, none,
        some "comma", [], [], []⟩
      = .ok ⟨headerOf ⟨true, true, some ["lat", "lon"], none, none,
          some "comma", [], [], []⟩, []⟩
    ∧ parseAfterScan ⟨true, true, some ["lat", "lon"], none, none,
        some "comma", [], [("date", "20241301")], []⟩
      = .error "ValueError: day is out of range for month" :=
  ⟨(C8_zero_rows_fatal_only_without_delimiter
      ⟨true, true, some ["lat", "lon"], none, none, some "comma", [], [], []⟩
      ["lat", "lon"] rfl (by decide) rfl).1 "," none
      (by with_unfolding_all decide) (by with_unfolding_all decide),
   (C8_zero_rows_fatal_only_without_delimiter
      ⟨true, true, some ["lat", "lon"], none, none, some "comma", [],
        [("date", "20241301")], []⟩
      ["lat", "lon"] rfl (by decide) rfl).2.2 ","
      "ValueError: day is out of range for month"
      (by with_unfolding_all decide) (by with_unfolding_all decide)⟩

/-- C8 counterexample: a file with a fields declaration, a declared
delimiter and zero data rows parses successfully into an empty dataset;
the claimed unconditional fatal error does not occur. -/
theorem C8_counterexample :
    (parse_seabass_file ["/begin_header", "/fields=lat,lon,date,time",
        "/delimiter=comma", "/end_header"]).toOption.map
      (fun d => d.records.length) = some 0
    ∧ (parse_seabass_file ["/begin_header", "/fields=lat,lon,date,time",
        "/delimiter=comma", "/end_header"]).toOption.map
      (fun d => d.header.delimiter) = some (some "comma") := by
  with_unfolding_all decide

/-! ## Claim C9: the default delimiter is not tab -/

/-- C9 (amended): when the header declares no delimiter token, the parser
detects the delimiter from the first data line (tab only if a tab occurs,
else comma if present, else whitespace), and the writer joins output row
values with a comma, the "safe default" of _delimiter_char. -/
theorem C9_default_delimiter_not_tab (st : ScanState) (l : String)
    (ls : List String) (header : SBHeader) (row_vals : List String)
    (h1 : st.delimiter = none) (h2 : st.data_lines = l :: ls)
    (h3 : header.delimiter = none) :
    resolveDelimiter st.delimiter st.data_lines = .ok (_detect_delimiter l)
    ∧ outputDataLine header row_vals = String.intercalate "," row_vals := by
  constructor
  · rw [h1, h2]
    rfl
  · rw [outputDataLine, h3]
    rfl

/-- Witness for C9 at a concrete scan state, header and row. -/
theorem C9_witness :
    resolveDelimiter (none : Option String) ["1,2", "3,4"]
      = .ok (_detect_delimiter "1,2")
    ∧ outputDataLine ⟨none, none, none, none, [], []⟩ ["a", "b"]
      = String.intercalate "," ["a", "b"] :=
  C9_default_delimiter_not_tab
    ⟨true, true, none, none, none, none, [], [], ["1,2", "3,4"]⟩
    "1,2" ["3,4"] ⟨none, none, none, none, [], []⟩ ["a", "b"] rfl rfl rfl

/-- C9 counterexample: with no declared delimiter the writer joins with a
comma (not tab), and the parser splits a comma-separated first data line on
commas (a tab split would have left a single token and no record). -/
theorem C9_counterexample :
    _delimiter_char none = ","
    ∧ ("," : String) ≠ "\t"
    ∧ (parse_seabass_file ["/begin_header", "/fields=lat,lon,date,time",
        "/end_header", "1,2,20240101,120000"]).toOption.map
      (fun d => d.records.map (·.lon)) = some [FloatVal.fin 2] := by
  with_unfolding_all decide

end Matchup
